import Mathlib

/-!
Verification of the goftp FTP client library (shenwei356/goftp).

The development shallowly embeds the two source files that carry the
algorithmic content of the repository:

* `parse.go` — the multi-dialect `LIST` output parser (`ParseLine` and the
  EPLF, Unix-style, VMS/MultiNet and MS-DOS sub-parsers, together with the
  year-guessing heuristic `guessTime` and the calendar conversion performed
  by Go's `time.Date(...).Unix()`), and
* `ftp.go` — the status-line codec (`parseCodeLine`), the quirk-tolerant
  reply reader (`MyreadCodeLine` / `MyReadCodeLine`), the PASV payload
  decoding inside `pasv`, and the per-line accumulation done by `List`.

Go strings are modelled as lists of characters (`GoStr`); Go's runtime
panics on out-of-range indexing/slicing are modelled by the `Except GoPanic`
result of the parsers, and every other Go index/slice expression that is
kept total in the model is in bounds on all reachable inputs, mirroring the
source.  Go's `strconv` functions are modelled with their exact
syntax-error/range-error result conventions, since several call sites of
the source discard the error and use the returned value.
-/

/-- A Go string, modelled as its list of characters. -/
abbrev GoStr := List Char

/-- Conversion from a Lean string literal to the Go string model. -/
def gs (s : String) : GoStr := s.toList

/-- `s[i]` for an index known (at the call site) to be in range; out of
range it yields the NUL character, a value never reached by the embedded
code on the in-range call sites where it is used. -/
def chAt (s : GoStr) (i : Nat) : Char := s.getD i (Char.ofNat 0)

/-- `s[i:j]` for `0 ≤ i ≤ j ≤ len s` (total model used only at call sites
where the source guarantees the bounds). -/
def gsub (s : GoStr) (i j : Nat) : GoStr := (s.take j).drop i

/-- `s[i:j]` with Go `int` indexes (used where the surrounding source code
has already established `0 ≤ i ≤ j ≤ len s`). -/
def gsubI (s : GoStr) (i j : Int) : GoStr := gsub s i.toNat j.toNat

/-- A Go runtime panic (index/slice out of range). -/
inductive GoPanic where
  | outOfRange
deriving Repr, DecidableEq

/-- Outcome classification of Go's `strconv` parsers: success, syntax
error, or range (overflow) error. -/
inductive NumStatus where
  | valid
  | malformed
  | overflow
deriving Repr, DecidableEq

/-- Digit scan of `strconv.ParseUint(s, 10, 64)`: processes characters left
to right, failing with a syntax error on the first non-digit and stopping
with `maxVal` and a range error as soon as the accumulator would exceed
`maxVal`. -/
def parseUintCore (maxVal : Nat) : GoStr → Nat → Nat × NumStatus
  | [], n => (n, .valid)
  | c :: t, n =>
    if '0' ≤ c ∧ c ≤ '9' then
      let n1 := n * 10 + (c.toNat - 48)
      if n1 > maxVal then (maxVal, .overflow) else parseUintCore maxVal t n1
    else (0, .malformed)

/-- Go `strconv.ParseUint(s, 10, 64)`: value and status.  An empty string
is a syntax error; no sign is accepted. -/
def goParseUint64 (s : GoStr) : Nat × NumStatus :=
  if s = [] then (0, .malformed) else parseUintCore (2 ^ 64 - 1) s 0

/-- Go `strconv.ParseInt(s, 10, bits)`: optional sign, then
`ParseUint(., 10, 64)`, then the `bits`-sized range check which clamps to
the maximum-magnitude value of the appropriate sign on overflow.  Returns
the value and whether parsing succeeded without error. -/
def goParseIntB (bits : Nat) (s : GoStr) : Int × Bool :=
  match s with
  | [] => (0, false)
  | c0 :: rest0 =>
    let neg : Bool := c0 = '-'
    let s1 : GoStr := if c0 = '+' ∨ c0 = '-' then rest0 else s
    let p := goParseUint64 s1
    match p.2 with
    | .malformed => (0, false)
    | st =>
      let cutoff : Nat := 2 ^ (bits - 1)
      if neg = false ∧ cutoff ≤ p.1 then ((cutoff : Int) - 1, false)
      else if neg = true ∧ cutoff < p.1 then (-(cutoff : Int), false)
      else ((if neg then -(p.1 : Int) else (p.1 : Int)), st = .valid)

/-- Go `strconv.Atoi` (= `ParseInt(s, 10, 0)` on a 64-bit platform). -/
def goAtoi (s : GoStr) : Int × Bool := goParseIntB 64 s

/-- `parseInt` of parse.go: `ParseInt(num, 10, 32)` with the error
discarded, so a syntax error yields 0 and overflow yields the clamped
value. -/
def parseInt (num : GoStr) : Int := (goParseIntB 32 num).1

/-- Whether `pre` is a prefix of `s` (Go `strings.HasPrefix`). -/
def goHasPfx : GoStr → GoStr → Bool
  | _, [] => true
  | [], _ :: _ => false
  | c :: s, p :: pre => if c = p then goHasPfx s pre else false

/-- Go `strings.Index(s, sep)`: byte index of the first occurrence of
`sep` in `s`, `-1` if absent (`0` for an empty `sep`). -/
def goIndexFrom : GoStr → GoStr → Int
  | s, sep =>
    if goHasPfx s sep then 0
    else match s with
      | [] => -1
      | _ :: t =>
        let r := goIndexFrom t sep
        if r < 0 then -1 else r + 1

/-- Go `strings.Split(s, string(c))` for a one-character separator. -/
def goSplitCh : GoStr → Char → List GoStr
  | [], _ => [[]]
  | ch :: t, c =>
    match goSplitCh t c with
    | [] => [[]]
    | h :: r => if ch = c then [] :: h :: r else (ch :: h) :: r

/-- Membership of a character in the cutset `"\t\n\r "` used by the
sub-parsers' `strings.Trim` call. -/
def isTrimCut (c : Char) : Bool := c = '\t' ∨ c = '\n' ∨ c = '\r' ∨ c = ' '

/-- Go `strings.Trim(s, "\t\n\r ")`. -/
def goTrim (s : GoStr) : GoStr :=
  ((s.dropWhile isTrimCut).reverse.dropWhile isTrimCut).reverse

/-- ASCII white space as recognised by Go `unicode.IsSpace`. -/
def isGoSpace (c : Char) : Bool :=
  c = ' ' ∨ c = '\t' ∨ c = '\n' ∨ c = Char.ofNat 11 ∨ c = Char.ofNat 12 ∨ c = '\r'

/-- Go `strings.TrimSpace` (ASCII fragment, which is all the embedded call
sites can observe on the listing dialects). -/
def goTrimSpace (s : GoStr) : GoStr :=
  ((s.dropWhile isGoSpace).reverse.dropWhile isGoSpace).reverse

/-- Go `strings.ToLower` restricted to ASCII, which is equality-preserving
for the three-letter month-name comparisons of `getMonth`. -/
def goToLower (s : GoStr) : GoStr :=
  s.map (fun c => if 'A' ≤ c ∧ c ≤ 'Z' then Char.ofNat (c.toNat + 32) else c)

/-!  ## Calendar arithmetic: Go's `time.Date(..., time.UTC).Unix()`  -/

/-- Go `time`'s internal `norm(hi, lo, base)`: carries `lo` into `hi` so
that `0 ≤ lo < base`. -/
def norm2 (hi lo base : Int) : Int × Int := (hi + lo / base, lo % base)

/-- Days from 1970-01-01 of the proleptic Gregorian date `(y, m, d)` with
`m` in `1..12` (`d` unconstrained; out-of-range days shift linearly exactly
as in Go's `time.Date`). -/
def daysFromCivil (y m d : Int) : Int :=
  let ys := y - (if m ≤ 2 then 1 else 0)
  let doy := (153 * (m + (if 2 < m then (-3) else 9)) + 2) / 5 + d - 1
  365 * ys + ys / 4 - ys / 100 + ys / 400 + doy - 719468

/-- Go `time.Date(year, month, day, hour, minu, sec, 0, UTC).Unix()`:
normalise the fields exactly as Go does, then convert. -/
def goDateUnix (year month day hour minu sec : Int) : Int :=
  let p1 := norm2 year (month - 1) 12
  let year1 := p1.1
  let month1 := p1.2 + 1
  let p2 := norm2 minu sec 60
  let minu1 := p2.1
  let sec1 := p2.2
  let p3 := norm2 hour minu1 60
  let hour1 := p3.1
  let minu2 := p3.2
  let p4 := norm2 day hour1 24
  let day1 := p4.1
  let hour2 := p4.2
  daysFromCivil year1 month1 day1 * 86400 + hour2 * 3600 + minu2 * 60 + sec1

/-- `getMtime` of parse.go: `time.Date(..., UTC).Unix()`. -/
def getMtime (year month mday hour minute second : Int) : Int :=
  goDateUnix year month mday hour minute second

/-- The process-wide `now`/`currentYear` snapshot of parse.go
(`var now = time.Now(); var currentYear = now.Year()`), passed explicitly. -/
structure Clock where
  nowUnix : Int
  currentYear : Int
deriving Repr, DecidableEq

/-- The loop of `guessTime`: scan candidate years upward, returning the
timestamp of the first candidate `year` with `now.Unix() - t < 350 days`;
the fuel counts the remaining candidates (`year < currentYear + 100`). -/
def guessTimeLoop (now month mday hour minute : Int) : Nat → Int → Int
  | 0, _ => 0
  | fuel + 1, year =>
    let t := getMtime year month mday hour minute 0
    if now - t < 350 * 86400 then t else guessTimeLoop now month mday hour minute fuel (year + 1)

/-- `guessTime` of parse.go: the year-guessing heuristic for listing dates
without an explicit year.  The Go loop runs `year` from `currentYear - 1`
while `year < currentYear + 100`, i.e. over exactly 101 candidates. -/
def guessTime (clk : Clock) (month mday hour minute : Int) : Int :=
  guessTimeLoop clk.nowUnix month mday hour minute 101 (clk.currentYear - 1)

/-- `MONTHS` of parse.go. -/
def MONTHS : List GoStr :=
  [gs ("jan"), gs ("feb"), gs ("mar"), gs ("apr"), gs ("may"), gs ("jun"),
   gs ("jul"), gs ("aug"), gs ("sep"), gs ("oct"), gs ("nov"), gs ("dec")]

/-- `getMonth` of parse.go: case-insensitive three-letter month lookup,
`-1` if not a month. -/
def getMonth (buf : GoStr) : Int :=
  if buf.length = 3 then
    match MONTHS.findIdx? (fun m => goToLower buf = m) with
    | some i => (i : Int) + 1
    | none => -1
  else -1

/-!  ## The directory-entry data model of parse.go  -/

/-- `MTIME_TYPE` of parse.go. -/
inductive MTIME_TYPE where
  | UNKNOWN_MTIME_TYPE
  | LOCAL_MTIME_TYPE
  | REMOTE_MINUTE_MTIME_TYPE
  | REMOTE_DAY_MTIME_TYPE
deriving Repr, DecidableEq

/-- `ID_TYPE` of parse.go. -/
inductive ID_TYPE where
  | UNKNOWN_ID_TYPE
  | FULL_ID_TYPE
deriving Repr, DecidableEq

/-- `FTPListData` of parse.go.  `mtime` is the Unix-seconds value carried
by the Go `time.Time` (set through `time.Unix(t, 0)`); `none` is the Go
zero `time.Time` left by `newFTPListData`. -/
structure FTPListData where
  rawLine : GoStr
  name : GoStr
  tryCwd : Bool
  tryRetr : Bool
  size : Nat
  mtimeType : MTIME_TYPE
  mtime : Option Int
  idType : ID_TYPE
  id : GoStr
  linkDest : GoStr
deriving Repr, DecidableEq

/-- `newFTPListData` of parse.go. -/
def newFTPListData (rawLine : GoStr) : FTPListData :=
  { rawLine := rawLine, name := [], tryCwd := false, tryRetr := false,
    size := 0, mtimeType := .UNKNOWN_MTIME_TYPE, mtime := none,
    idType := .UNKNOWN_ID_TYPE, id := [], linkDest := [] }

/-!  ## `parseEPLF`  -/

/-- The fact-scanning loop of `parseEPLF`, `j` running from 1 while
`j < len(buf)` (the fuel is `len(buf) - j`).  `i` marks the start of the
current fact.  A `\t` stores the name and stops; on a `,` the fact is
dispatched on its first character; a failing numeric fact aborts with
`nil` (`.ok none`); the `i` fact performs Go's
`fdata.Id = buf[i+1 : j-i-1]`, which panics when that is not a valid
slice. -/
def eplfLoop (buf : GoStr) (fd : FTPListData) : Nat → Nat → Nat →
    Except GoPanic (Option FTPListData)
  | 0, _, _ => .ok (some fd)
  | fuel + 1, j, i =>
    if chAt buf j = '\t' then .ok (some { fd with name := buf.drop (j + 1) })
    else if chAt buf j = ',' then
      let c := chAt buf i
      if c = '/' then eplfLoop buf { fd with tryCwd := true } fuel (j + 1) (j + 1)
      else if c = 'r' then eplfLoop buf { fd with tryRetr := true } fuel (j + 1) (j + 1)
      else if c = 's' then
        let p := goParseUint64 (gsub buf (i + 1) j)
        if p.2 = .valid then eplfLoop buf { fd with size := p.1 } fuel (j + 1) (j + 1)
        else .ok none
      else if c = 'm' then
        let fd := { fd with mtimeType := .LOCAL_MTIME_TYPE }
        let p := goParseIntB 64 (gsub buf (i + 1) j)
        if p.2 then eplfLoop buf { fd with mtime := some p.1 } fuel (j + 1) (j + 1)
        else .ok none
      else if c = 'i' then
        let e : Int := (j : Int) - i - 1
        if (i : Int) + 1 ≤ e ∧ e ≤ buf.length then
          eplfLoop buf { fd with idType := .FULL_ID_TYPE, id := gsubI buf ((i : Int) + 1) e }
            fuel (j + 1) (j + 1)
        else .error .outOfRange
      else eplfLoop buf fd fuel (j + 1) (j + 1)
    else eplfLoop buf fd fuel (j + 1) i

/-- `parseEPLF` of parse.go. -/
def parseEPLF (buf0 : GoStr) : Except GoPanic (Option FTPListData) :=
  let fd := newFTPListData buf0
  let buf := goTrim buf0
  eplfLoop buf fd (buf.length - 1) 1 1

/-!  ## `parseUNIXStyle`  -/

/-- The mutable state of the Unix-style 8-state token scanner: the
in-progress `fdata`, the `state` counter, and the `size`/`month`/`mday`
locals that survive across loop iterations.  `brk` records the `break`
taken in state 7 on a short non-time token. -/
structure UState where
  fdata : FTPListData
  st : Nat
  size : Nat
  month : Int
  mday : Int
  brk : Bool
deriving Repr, DecidableEq

/-- One state transition of the Unix-style scanner, fired when the token
`buf[i:j]` ends at a space boundary `j`. -/
def unixStep (clk : Clock) (buf : GoStr) (i j : Nat) (s : UState) : UState :=
  if s.st = 1 then { s with st := 2 }
  else if s.st = 2 then
    if j - i = 6 ∧ chAt buf i = 'f' then { s with st := 4 } else { s with st := 3 }
  else if s.st = 3 then { s with st := 4 }
  else if s.st = 4 then { s with size := (goParseUint64 (gsub buf i j)).1, st := 5 }
  else if s.st = 5 then
    let m := getMonth (gsub buf i j)
    if 0 ≤ m then { s with month := m, st := 6 }
    else { s with month := m, size := (goParseUint64 (gsub buf i j)).1 }
  else if s.st = 6 then { s with mday := parseInt (gsub buf i j), st := 7 }
  else if s.st = 7 then
    if j - i = 4 ∧ chAt buf (i + 1) = ':' then
      let hour := parseInt [chAt buf i]
      let minute := parseInt (gsub buf (i + 2) (i + 4))
      { s with
        fdata := { s.fdata with
          mtimeType := .REMOTE_MINUTE_MTIME_TYPE,
          mtime := some (guessTime clk s.month s.mday hour minute),
          name := buf.drop (j + 1) },
        st := 8 }
    else if j - i = 5 ∧ chAt buf (i + 2) = ':' then
      let hour := parseInt (gsub buf i (i + 2))
      let minute := parseInt (gsub buf (i + 3) (i + 5))
      { s with
        fdata := { s.fdata with
          mtimeType := .REMOTE_MINUTE_MTIME_TYPE,
          mtime := some (guessTime clk s.month s.mday hour minute),
          name := buf.drop (j + 1) },
        st := 8 }
    else if 4 ≤ j - i then
      let year := parseInt (gsub buf i j)
      { s with
        fdata := { s.fdata with
          mtimeType := .REMOTE_DAY_MTIME_TYPE,
          mtime := some (getMtime year s.month s.mday 0 0 0),
          name := buf.drop (j + 1) },
        st := 8 }
    else { s with brk := true }
  else s

/-- The inner `for i = j + 1; i < buflen && buf[i] == ' '; i++` skip of
the Unix-style scanner (the fuel is `buflen - k`). -/
def skipSp (buf : GoStr) : Nat → Nat → Nat
  | 0, k => k
  | fuel + 1, k => if chAt buf k = ' ' then skipSp buf fuel (k + 1) else k

/-- The main token loop of `parseUNIXStyle`, `j` running from 1 while
`j < buflen` (the fuel is `buflen - j`); a state-7 `break` ends the loop
at once. -/
def unixLoop (clk : Clock) (buf : GoStr) (buflen : Nat) :
    Nat → Nat → Nat → UState → UState
  | 0, _, _, s => s
  | fuel + 1, j, i, s =>
    if chAt buf j = ' ' ∧ chAt buf (j - 1) ≠ ' ' then
      let s' := unixStep clk buf i j s
      if s'.brk then s'
      else unixLoop clk buf buflen fuel (j + 1) (skipSp buf (buflen - (j + 1)) (j + 1)) s'
    else unixLoop clk buf buflen fuel (j + 1) i s

/-- The symlink split of `parseUNIXStyle`: the first position `k` with
`k + 3 < len(name)` and `name[k:k+4] == " -> "`, if any. -/
def findArrowAux (nm : GoStr) : Nat → Nat → Option Nat
  | 0, _ => none
  | fuel + 1, k =>
    if k + 3 < nm.length then
      if gsub nm k (k + 4) = gs (" -> ") then some k else findArrowAux nm fuel (k + 1)
    else none

/-- `parseUNIXStyle` of parse.go.  The two panic sites of the source are
kept: `c := buf[0]` on an all-whitespace line and the unconditional
`buf[1]` read of the NetWare clean-up step. -/
def parseUNIXStyle (clk : Clock) (buf0 : GoStr) : Except GoPanic (Option FTPListData) :=
  let fd0 := newFTPListData buf0
  let buf := goTrim buf0
  let buflen := buf.length
  if buflen = 0 then .error .outOfRange
  else
    let c := chAt buf 0
    let fd1 : FTPListData :=
      if c = 'd' then { fd0 with tryCwd := true }
      else if c = '-' then { fd0 with tryRetr := true }
      else if c = 'l' then { fd0 with tryRetr := true, tryCwd := true }
      else fd0
    let s0 : UState := { fdata := fd1, st := 1, size := 0, month := 1, mday := 0, brk := false }
    let s := unixLoop clk buf buflen (buflen - 1) 1 0 s0
    let fd2 : FTPListData := { s.fdata with size := s.size }
    let fd3 : FTPListData :=
      if c = 'l' then
        match findArrowAux fd2.name fd2.name.length 0 with
        | some k => { fd2 with name := fd2.name.take k, linkDest := fd2.name.drop (k + 4) }
        | none => fd2
      else fd2
    if buflen < 2 then .error .outOfRange
    else
      let fd4 : FTPListData :=
        if chAt buf 1 = ' ' ∨ chAt buf 1 = '[' then
          if 3 < fd3.name.length then { fd3 with name := goTrimSpace fd3.name } else fd3
        else fd3
      .ok (some fd4)

/-!  ## `parseMultinet` and `parseMSDOS`  -/

/-- `indexAfter` of parse.go: `i + strings.Index(s[i:], sep)`, `-1` when
absent (callers establish `0 ≤ i ≤ len s`). -/
def indexAfter (s : GoStr) (sep : GoStr) (i : Int) : Int :=
  let x := i + goIndexFrom (s.drop i.toNat) sep
  if x < i then -1 else x

/-- The loop of `skip` of parse.go (the fuel is `len s - i`): advance past
a run of `c`, `-1` if the run reaches the end of the string. -/
def skipAux (s : GoStr) (c : Char) : Nat → Nat → Int
  | 0, _ => -1
  | fuel + 1, i => if chAt s i = c then skipAux s c fuel (i + 1) else (i : Int)

/-- `skip` of parse.go (callers establish `0 ≤ i < len s`). -/
def skip (s : GoStr) (i : Int) (c : Char) : Int :=
  skipAux s c (s.length - i.toNat) i.toNat

/-- The manual minute scan of `parseMultinet`: advance `j` while `buf[j]`
is neither `:` nor a space, returning `none` (Go's early `return`) when
`j` reaches `buflen` (the fuel is `buflen - j`). -/
def scanToColonSp (buf : GoStr) : Nat → Nat → Option Nat
  | 0, _ => none
  | fuel + 1, j =>
    if chAt buf j ≠ ':' ∧ chAt buf j ≠ ' ' then
      if j + 1 = buf.length then none else scanToColonSp buf fuel (j + 1)
    else some j

/-- `parseMultinet` of parse.go.  `i0` is the `;` index computed by
`ParseLine` on the *untrimmed* line; the source's `fdata.Name = buf[:i]`
panics when it exceeds the trimmed length.  Every `return` taken on a
missing delimiter is a Go naked return, yielding the partially populated
entry built so far. -/
def parseMultinet (buf0 : GoStr) (i0 : Int) : Except GoPanic (Option FTPListData) :=
  let fd := newFTPListData buf0
  let buf := goTrim buf0
  if ¬(0 ≤ i0 ∧ i0 ≤ buf.length) then .error .outOfRange
  else
    let fd := { fd with name := buf.take i0.toNat }
    let buflen := buf.length
    let fd :=
      if 4 < i0 ∧ gsubI buf (i0 - 4) i0 = gs (".DIR") then
        { fd with name := fd.name.take (fd.name.length - 4), tryCwd := true }
      else fd
    let fd := if fd.tryCwd = false then { fd with tryRetr := true } else fd
    -- two iterations of the `p` loop: skip two space-delimited fields
    let i1 := indexAfter buf (gs (" ")) i0
    if i1 = -1 then .ok (some fd) else
    let i2 := skip buf i1 ' '
    if i2 = -1 then .ok (some fd) else
    let i3 := indexAfter buf (gs (" ")) i2
    if i3 = -1 then .ok (some fd) else
    let i4 := skip buf i3 ' '
    if i4 = -1 then .ok (some fd) else
    -- day-MON-year
    let j1 := indexAfter buf (gs ("-")) i4
    if j1 = -1 then .ok (some fd) else
    let mday := parseInt (gsubI buf i4 j1)
    let j2 := skip buf j1 '-'
    if j2 = -1 then .ok (some fd) else
    let i5 := j2
    let j3 := indexAfter buf (gs ("-")) j2
    if j3 = -1 then .ok (some fd) else
    let month := getMonth (gsubI buf i5 j3)
    if month < 0 then .ok (some fd) else
    let j4 := skip buf j3 '-'
    if j4 = -1 then .ok (some fd) else
    let i6 := j4
    let j5 := indexAfter buf (gs (" ")) j4
    if j5 = -1 then .ok (some fd) else
    let year := parseInt (gsubI buf i6 j5)
    let j6 := skip buf j5 ' '
    if j6 = -1 then .ok (some fd) else
    let i7 := j6
    let j7 := indexAfter buf (gs (":")) j6
    if j7 = -1 then .ok (some fd) else
    let hour := parseInt (gsubI buf i7 j7)
    let j8 := skip buf j7 ':'
    if j8 = -1 then .ok (some fd) else
    let i8 := j8
    match scanToColonSp buf (buflen - j8.toNat) j8.toNat with
    | none => .ok (some fd)
    | some j9 =>
      let minute := parseInt (gsubI buf i8 (j9 : Int))
      .ok (some { fd with
        mtimeType := .REMOTE_MINUTE_MTIME_TYPE,
        mtime := some (getMtime year month mday hour minute 0) })

/-- The `AM`/`PM` scan of `parseMSDOS`: advance `j` while `buf[j]` is
neither `A` nor `P`, `none` (early return) when `j` reaches `buflen`. -/
def scanToAP (buf : GoStr) : Nat → Nat → Option Nat
  | 0, _ => none
  | fuel + 1, j =>
    if chAt buf j ≠ 'A' ∧ chAt buf j ≠ 'P' then
      if j + 1 = buf.length then none else scanToAP buf fuel (j + 1)
    else some j

/-- The two-digit-year windowing of `parseMSDOS`: `if year < 50 { year +=
2000 }; if year < 1000 { year += 1900 }`. -/
def msdosNormYear (y : Int) : Int :=
  let y1 := if y < 50 then y + 2000 else y
  if y1 < 1000 then y1 + 1900 else y1

/-- `parseMSDOS` of parse.go.  As in `parseMultinet`, every early `return`
is a naked return yielding the partial entry. -/
def parseMSDOS (buf0 : GoStr) : Except GoPanic (Option FTPListData) :=
  let fd := newFTPListData buf0
  let buf := goTrim buf0
  let buflen := buf.length
  let j1 := indexAfter buf (gs ("-")) 0
  if j1 = -1 then .ok (some fd) else
  let month := parseInt (gsubI buf 0 j1)
  let j2 := skip buf j1 '-'
  if j2 = -1 then .ok (some fd) else
  let i1 := j2
  let j3 := indexAfter buf (gs ("-")) j2
  if j3 = -1 then .ok (some fd) else
  let mday := parseInt (gsubI buf i1 j3)
  let j4 := skip buf j3 '-'
  if j4 = -1 then .ok (some fd) else
  let i2 := j4
  let j5 := indexAfter buf (gs (" ")) j4
  if j5 = -1 then .ok (some fd) else
  let year := msdosNormYear (parseInt (gsubI buf i2 j5))
  let j6 := skip buf j5 ' '
  if j6 = -1 then .ok (some fd) else
  let i3 := j6
  let j7 := indexAfter buf (gs (":")) j6
  if j7 = -1 then .ok (some fd) else
  let hour := parseInt (gsubI buf i3 j7)
  let j8 := skip buf j7 ':'
  if j8 = -1 then .ok (some fd) else
  let i4 := j8
  match scanToAP buf (buflen - j8.toNat) j8.toNat with
  | none => .ok (some fd)
  | some j9 =>
    let minute := parseInt (gsubI buf i4 (j9 : Int))
    -- the A / P / M steps, each checking for the end of the string
    let stepA : Option (Nat × Int) :=
      if chAt buf j9 = 'A' then
        if j9 + 1 = buflen then none else some (j9 + 1, hour)
      else some (j9, hour)
    match stepA with
    | none => .ok (some fd)
    | some (j10, hour) =>
      let stepP : Option (Nat × Int) :=
        if chAt buf j10 = 'P' then
          if j10 + 1 = buflen then none else some (j10 + 1, (hour + 12).tmod 24)
        else some (j10, hour)
      match stepP with
      | none => .ok (some fd)
      | some (j11, hour) =>
        let stepM : Option Nat :=
          if chAt buf j11 = 'M' then
            if j11 + 1 = buflen then none else some (j11 + 1)
          else some j11
        match stepM with
        | none => .ok (some fd)
        | some j12 =>
          let j13 := skip buf (j12 : Int) ' '
          if j13 = -1 then .ok (some fd) else
          if chAt buf j13.toNat = '<' then
            let fd := { fd with tryCwd := true }
            let j14 := indexAfter buf (gs (" ")) j13
            if j14 = -1 then .ok (some fd) else
            let j15 := skip buf j14 ' '
            if j15 = -1 then .ok (some fd) else
            .ok (some { fd with
              name := buf.drop j15.toNat,
              mtimeType := .REMOTE_MINUTE_MTIME_TYPE,
              mtime := some (getMtime year month mday hour minute 0) })
          else
            let i5 := j13
            let j14 := indexAfter buf (gs (" ")) j13
            if j14 = -1 then .ok (some fd) else
            let fd := { fd with size := (goParseUint64 (gsubI buf i5 j14)).1, tryRetr := true }
            let j15 := skip buf j14 ' '
            if j15 = -1 then .ok (some fd) else
            .ok (some { fd with
              name := buf.drop j15.toNat,
              mtimeType := .REMOTE_MINUTE_MTIME_TYPE,
              mtime := some (getMtime year month mday hour minute 0) })

/-!  ## `ParseLine`  -/

/-- `ParseLine` of parse.go: dispatch on the first character (EPLF,
Unix-style family, VMS/MultiNet on a `;` at positive index, MS-DOS on a
leading digit), `nil` otherwise or when the line is shorter than two
characters. -/
def ParseLine (clk : Clock) (line : GoStr) : Except GoPanic (Option FTPListData) :=
  if line.length < 2 then .ok none
  else
    let c := chAt line 0
    if c = '+' then parseEPLF line
    else if c = 'b' ∨ c = 'c' ∨ c = 'd' ∨ c = 'l' ∨ c = 'p' ∨ c = 's' ∨ c = '-' then
      parseUNIXStyle clk line
    else if 0 < goIndexFrom line (gs (";")) then parseMultinet line (goIndexFrom line (gs (";")))
    else if '0' ≤ c ∧ c ≤ '9' then parseMSDOS line
    else .ok none

/-!  ## ftp.go: status-line codec, reply reader, PASV decoding, List  -/

/-- The error values produced by the embedded fragment of ftp.go:
`textproto.ProtocolError` strings, `textproto.Error{code, msg}` values,
`errors.New` values, and the `io.EOF` read error. -/
inductive GoErr where
  | protocolError (msg : GoStr)
  | textprotoError (code : Int) (msg : GoStr)
  | newError (msg : GoStr)
  | eof
deriving Repr, DecidableEq

/-- `parseCodeLine` of ftp.go: decode one reply line into
`(code, continued, message, err)`, exactly as the Go named returns leave
them on every path. -/
def parseCodeLine (line : GoStr) (expectCode : Int) : Int × Bool × GoStr × Option GoErr :=
  if line.length < 4 ∨ (chAt line 3 ≠ ' ' ∧ chAt line 3 ≠ '-') then
    (0, false, [], some (.protocolError (gs ("short response: ") ++ line)))
  else
    let continued := chAt line 3 = '-'
    let p := goAtoi (gsub line 0 3)
    let code := p.1
    if p.2 = false ∨ code < 100 then
      (code, continued, [], some (.protocolError (gs ("invalid response code: ") ++ line)))
    else
      let message := line.drop 4
      let err : Option GoErr :=
        if (1 ≤ expectCode ∧ expectCode < 10 ∧ code / 100 ≠ expectCode) ∨
           (10 ≤ expectCode ∧ expectCode < 100 ∧ code / 10 ≠ expectCode) ∨
           (100 ≤ expectCode ∧ expectCode < 1000 ∧ code ≠ expectCode) then
          some (.textprotoError code message)
        else none
      (code, continued, message, err)

/-- `MyreadCodeLine` of ftp.go over a pure model of the control-channel
line stream.  A first line starting with two spaces is discarded; one more
line is read with its error ignored (`line, _ = r.ReadLine()` — the
subsequent `if err != nil` tests the stale, nil error); then a further
line is read and decoded.  Reading at end of stream yields the `io.EOF`
error with the zero-valued named returns. -/
def MyreadCodeLine (stream : List GoStr) (expectCode : Int) :
    (Int × Bool × GoStr × Option GoErr) × List GoStr :=
  match stream with
  | [] => ((0, false, [], some .eof), [])
  | line :: rest =>
    if goHasPfx line (gs ("  ")) then
      match rest with
      | [] =>
        -- second ReadLine: error discarded; third ReadLine fails with EOF
        ((0, false, [], some .eof), [])
      | _ :: rest2 =>
        match rest2 with
        | [] => ((0, false, [], some .eof), [])
        | line3 :: rest3 => (parseCodeLine line3 expectCode, rest3)
    else (parseCodeLine line expectCode, rest)

/-- `MyReadCodeLine` of ftp.go: drop the `continued` flag; a continued
reply with no decoding error is returned as-is instead of being reported
as an "unexpected multi-line response" error. -/
def MyReadCodeLine (stream : List GoStr) (expectCode : Int) :
    (Int × GoStr × Option GoErr) × List GoStr :=
  let r := MyreadCodeLine stream expectCode
  ((r.1.1, r.1.2.2.1, r.1.2.2.2), r.2)

/-- The reply-payload decoding of `pasv` in ftp.go (the part after the
reply has been read): find the first `(` and first `)`, split the text
between them on `,`, and combine the last two elements as
`l1*256 + l2` with `strconv.Atoi` errors discarded; a missing parenthesis
yields the `Invalid PASV response format` error with port 0.  The two
slice/index panics of the source (`)` before `(`; fewer than two
elements) are modelled exactly. -/
def pasvDecode (line : GoStr) : Except GoPanic (Int × Option GoErr) :=
  let start := goIndexFrom line (gs ("("))
  let stop := goIndexFrom line (gs (")"))
  if start = -1 ∨ stop = -1 then
    .ok (0, some (.newError (gs ("Invalid PASV response format"))))
  else
    if start + 1 ≤ stop then
      let s := goSplitCh (gsubI line (start + 1) stop) ','
      if 2 ≤ s.length then
        let l1 := (goAtoi (s.getD (s.length - 2) [])).1
        let l2 := (goAtoi (s.getD (s.length - 1) [])).1
        .ok (l1 * 256 + l2, none)
      else .error .outOfRange
    else .error .outOfRange

/-- The per-line accumulation of `List` in ftp.go: each line read from the
data connection is fed to `ParseLine` and the result — including a `nil`
result for an unparsable line — is appended to `entries`. -/
def listEntries (clk : Clock) : List GoStr → Except GoPanic (List (Option FTPListData))
  | [] => .ok []
  | l :: rest =>
    match ParseLine clk l with
    | .error p => .error p
    | .ok e =>
      match listEntries clk rest with
      | .error p => .error p
      | .ok es => .ok (e :: es)

/-!  ## Claim theorems  -/

deriving instance DecidableEq for Except

/-- A concrete clock snapshot (2023-11-14 22:13:20 UTC, year 2023) used to
instantiate the global `now`/`currentYear` of parse.go in concrete
evaluations. -/
def clock0 : Clock := ⟨1700000000, 2023⟩

/-- C1: the claim states that a malformed line never yields a partially
filled entry.  The code violates this: on the truncated VMS/MultiNet line
`"CORE.DIR;1"`, `parseMultinet` hits a missing `" "` delimiter and its
naked `return` yields the allocated entry with only `name`/`tryCwd`
populated — `mtimeType` is still `UNKNOWN_MTIME_TYPE` and `mtime` is the
zero time — instead of producing no entry. -/
theorem C1_multinet_partial_entry :
    ParseLine clock0 (gs ("CORE.DIR;1")) =
      Except.ok (some
        { rawLine := gs ("CORE.DIR;1"), name := gs ("CORE"),
          tryCwd := true, tryRetr := false, size := 0,
          mtimeType := .UNKNOWN_MTIME_TYPE, mtime := none,
          idType := .UNKNOWN_ID_TYPE, id := [], linkDest := [] }) := by
  decide

/-- C3: the claim states that the EPLF `i` fact sets the identifier to the
whole text between the `i` tag and the terminating comma.  The code's
`fdata.Id = buf[i+1 : j-i-1]` (a mistranslation of ftpparse.c's
pointer-plus-length pair) instead stores `buf[2 : j-2]` for a leading `i`
fact, cutting off the last two characters: on the test-suite line the
stored id is `"9872342.321"`, not the full `"9872342.32142"`. -/
theorem C3_eplf_id_truncated :
    ParseLine clock0 (gs ("+i9872342.32142,m1229473595,/,\tpub")) =
      Except.ok (some
        { rawLine := gs ("+i9872342.32142,m1229473595,/,\tpub"), name := gs ("pub"),
          tryCwd := true, tryRetr := false, size := 0,
          mtimeType := .LOCAL_MTIME_TYPE, mtime := some 1229473595,
          idType := .FULL_ID_TYPE, id := gs ("9872342.321"), linkDest := [] }) ∧
    gs ("9872342.321") ≠ gs ("9872342.32142") := by
  constructor
  · decide
  · decide

/-- C10: the claim states that `ParseLine` is total, returning an entry or
no entry on every string.  The code panics instead on both families of
inputs named by the claim: on `"- "` the Unix-style sub-parser's trim
leaves a single character and the unconditional NetWare check `buf[1]`
indexes out of range, and on `"   a;1"` the `;` index 4 computed on the
untrimmed line exceeds the trimmed length 3, so `fdata.Name = buf[:i]`
slices out of range. -/
theorem C10_parseline_panics :
    ParseLine clock0 (gs ("- ")) = Except.error .outOfRange ∧
    ParseLine clock0 (gs ("   a;1")) = Except.error .outOfRange := by
  constructor
  · decide
  · decide

/-- C2 counterexample: on the unparsable line `"hello world"` the listing
loop of `List` appends the `nil` result of `ParseLine` to `entries`, so
the returned collection is `[nil]`, not the empty collection the claim
("the unparsable line contributes no entry to it") requires. -/
theorem C2_counterexample_nil_appended :
    listEntries clock0 [gs ("hello world")] = Except.ok [none] ∧
    Except.ok [(none : Option FTPListData)] ≠
      (Except.ok ([] : List (Option FTPListData)) : Except GoPanic (List (Option FTPListData))) := by
  constructor
  · decide
  · decide

/-- C2 (amended): an unparsable line never aborts the listing and every
other line's result is retained in order, but the unparsable line
contributes a `nil` placeholder element to the returned collection rather
than nothing. -/
theorem C2_unparsable_line_nil_placeholder (clk : Clock) (xs ys : List GoStr) (l : GoStr)
    (h : ParseLine clk l = Except.ok none) :
    listEntries clk (xs ++ l :: ys) =
      (listEntries clk xs).bind (fun a =>
        (listEntries clk ys).map (fun b => a ++ none :: b)) := by
  induction xs with
  | nil =>
    simp only [List.nil_append, listEntries, h]
    cases hys : listEntries clk ys <;> simp [Except.bind, Except.map]
  | cons x xs ih =>
    simp only [List.cons_append, listEntries, List.append_eq]
    cases hx : ParseLine clk x with
    | error p => simp [Except.bind]
    | ok e =>
      simp only []
      rw [ih]
      cases hxs : listEntries clk xs <;> cases hys : listEntries clk ys <;>
        simp [Except.bind, Except.map]

/-- C2 witness: instantiating the amended statement at a well-formed
MS-DOS line followed by the unparsable line. -/
theorem C2_witness :
    listEntries clock0 ([gs ("04-14-99  03:47PM                  589 readme.htm")] ++
        gs ("hello world") :: []) =
      (listEntries clock0 [gs ("04-14-99  03:47PM                  589 readme.htm")]).bind
        (fun a => (listEntries clock0 []).map (fun b => a ++ none :: b)) :=
  C2_unparsable_line_nil_placeholder clock0 _ _ _ (by decide)

/-- C9: the MS-DOS two-digit-year windowing — a parsed year below 50 gains
2000, a parsed year in `[50, 1000)` gains 1900 — together with the two
documented instances: year `"00"` resolves to 2000 (mtime
2000-04-27 21:09 UTC) and year `"76"` resolves to 1976 (mtime
1976-12-30 17:44 UTC). -/
theorem C9_msdos_year_windowing :
    (∀ y : Int, 0 ≤ y → y < 50 → msdosNormYear y = y + 2000) ∧
    (∀ y : Int, 50 ≤ y → y < 1000 → msdosNormYear y = y + 1900) ∧
    parseMSDOS (gs ("04-27-00  09:09PM       <DIR>          licensed")) =
      Except.ok (some
        { rawLine := gs ("04-27-00  09:09PM       <DIR>          licensed"),
          name := gs ("licensed"), tryCwd := true, tryRetr := false, size := 0,
          mtimeType := .REMOTE_MINUTE_MTIME_TYPE, mtime := some 956869740,
          idType := .UNKNOWN_ID_TYPE, id := [], linkDest := [] }) ∧
    parseMSDOS (gs ("12-30-76  05:44PM      100 x.txt")) =
      Except.ok (some
        { rawLine := gs ("12-30-76  05:44PM      100 x.txt"),
          name := gs ("x.txt"), tryCwd := false, tryRetr := true, size := 100,
          mtimeType := .REMOTE_MINUTE_MTIME_TYPE, mtime := some 220815840,
          idType := .UNKNOWN_ID_TYPE, id := [], linkDest := [] }) := by
  refine ⟨?_, ?_, by decide, by decide⟩
  · intro y h0 h50
    simp only [msdosNormYear, if_pos h50, if_neg (by omega : ¬ y + 2000 < 1000)]
  · intro y h50 h1000
    simp only [msdosNormYear, if_neg (by omega : ¬ y < 50), if_pos h1000]

/-- C9 witness: the windowing evaluated at the two documented years. -/
theorem C9_witness : msdosNormYear 0 = 0 + 2000 ∧ msdosNormYear 76 = 76 + 1900 :=
  ⟨C9_msdos_year_windowing.1 0 (by decide) (by decide),
   C9_msdos_year_windowing.2.1 76 (by decide) (by decide)⟩

/-- The two `ProtocolError` texts of `parseCodeLine` have different
lengths, so they stay distinct whatever reply line is appended. -/
theorem shortMsg_ne_invalidMsg (line : GoStr) :
    gs ("short response: ") ++ line ≠ gs ("invalid response code: ") ++ line := by
  intro h
  have hlen : (gs ("short response: ") ++ line).length =
      (gs ("invalid response code: ") ++ line).length := by rw [h]
  simp only [List.length_append] at hlen
  have h1 : (gs ("short response: ")).length = 16 := by decide
  have h2 : (gs ("invalid response code: ")).length = 23 := by decide
  omega

/-- C7: `parseCodeLine` fails with the malformed-status-line error
(`"short response: ..."`) exactly when the line is shorter than 4
characters or its 4th character is neither a space nor a hyphen, and —
given that first check passes — fails with the invalid-status-code error
(`"invalid response code: ..."`) exactly when the leading 3 characters do
not parse (with `strconv.Atoi`) as an integer that is at least 100. -/
theorem C7_code_line_errors (line : GoStr) (expectCode : Int) :
    ((parseCodeLine line expectCode).2.2.2 =
        some (.protocolError (gs ("short response: ") ++ line)) ↔
      (line.length < 4 ∨ (chAt line 3 ≠ ' ' ∧ chAt line 3 ≠ '-'))) ∧
    ((parseCodeLine line expectCode).2.2.2 =
        some (.protocolError (gs ("invalid response code: ") ++ line)) ↔
      (¬(line.length < 4 ∨ (chAt line 3 ≠ ' ' ∧ chAt line 3 ≠ '-')) ∧
        ((goAtoi (gsub line 0 3)).2 = false ∨ (goAtoi (gsub line 0 3)).1 < 100))) := by
  by_cases hshort : line.length < 4 ∨ (chAt line 3 ≠ ' ' ∧ chAt line 3 ≠ '-')
  · rw [parseCodeLine, if_pos hshort]
    constructor
    · simp [hshort]
    · constructor
      · intro h
        exact absurd (Option.some.inj h) (by
          intro hmsg
          exact shortMsg_ne_invalidMsg line (GoErr.protocolError.inj hmsg))
      · intro h
        exact absurd hshort h.1
  · rw [parseCodeLine, if_neg hshort]
    by_cases hatoi : (goAtoi (gsub line 0 3)).2 = false ∨ (goAtoi (gsub line 0 3)).1 < 100
    · rw [if_pos hatoi]
      constructor
      · simp only []
        constructor
        · intro h
          exact absurd ((GoErr.protocolError.inj (Option.some.inj h)).symm)
            (shortMsg_ne_invalidMsg line)
        · intro h
          exact absurd h hshort
      · simp [hshort, hatoi]
    · rw [if_neg hatoi]
      constructor
      · simp only []
        constructor
        · intro h
          by_cases hexp :
              (1 ≤ expectCode ∧ expectCode < 10 ∧ (goAtoi (gsub line 0 3)).1 / 100 ≠ expectCode) ∨
              (10 ≤ expectCode ∧ expectCode < 100 ∧ (goAtoi (gsub line 0 3)).1 / 10 ≠ expectCode) ∨
              (100 ≤ expectCode ∧ expectCode < 1000 ∧ (goAtoi (gsub line 0 3)).1 ≠ expectCode)
          · rw [if_pos hexp] at h
            exact absurd (Option.some.inj h) (by intro hc; cases hc)
          · rw [if_neg hexp] at h
            exact absurd h (by intro hc; cases hc)
        · intro h
          exact absurd h hshort
      · simp [hshort, hatoi]

set_option maxRecDepth 8000 in
/-- C6: for a reply line with a parenthesized comma list — a `(` at
non-negative index, a later `)` and at least one comma between them — the
PASV decoding returns `l1*256 + l2` where `l1`, `l2` are the `Atoi` values
of the last two comma-separated elements; the documented line decodes to
port 5000; a line missing `(` or `)` fails with the
`Invalid PASV response format` error. -/
theorem C6_pasv_port_decoding :
    (∀ (line : GoStr) (start stop : Int),
        goIndexFrom line (gs ("(")) = start →
        goIndexFrom line (gs (")")) = stop →
        0 ≤ start → start + 1 ≤ stop →
        2 ≤ (goSplitCh (gsubI line (start + 1) stop) ',').length →
        pasvDecode line = Except.ok
          ((goAtoi ((goSplitCh (gsubI line (start + 1) stop) ',').getD
              ((goSplitCh (gsubI line (start + 1) stop) ',').length - 2) [])).1 * 256 +
           (goAtoi ((goSplitCh (gsubI line (start + 1) stop) ',').getD
              ((goSplitCh (gsubI line (start + 1) stop) ',').length - 1) [])).1, none)) ∧
    pasvDecode (gs ("227 Entering Passive Mode (127,0,0,1,19,136)")) =
      Except.ok (19 * 256 + 136, none) ∧
    (∀ line : GoStr,
        goIndexFrom line (gs ("(")) = -1 ∨ goIndexFrom line (gs (")")) = -1 →
        pasvDecode line =
          Except.ok (0, some (.newError (gs ("Invalid PASV response format"))))) := by
  refine ⟨?_, by decide, ?_⟩
  · intro line start stop h1 h2 hpos hlt hlen
    rw [pasvDecode, h1, h2, if_neg (by omega), if_pos hlt, if_pos hlen]
  · intro line h
    rw [pasvDecode]
    rcases h with h | h <;> rw [h] <;> simp

set_option maxRecDepth 8000 in
/-- C6 witness: the general part instantiated at the documented reply
line, whose `(` is at index 26 and `)` at index 43. -/
theorem C6_witness :
    pasvDecode (gs ("227 Entering Passive Mode (127,0,0,1,19,136)")) = Except.ok
      ((goAtoi ((goSplitCh (gsubI (gs ("227 Entering Passive Mode (127,0,0,1,19,136)")) (26 + 1) 43) ',').getD
          ((goSplitCh (gsubI (gs ("227 Entering Passive Mode (127,0,0,1,19,136)")) (26 + 1) 43) ',').length - 2) [])).1 * 256 +
       (goAtoi ((goSplitCh (gsubI (gs ("227 Entering Passive Mode (127,0,0,1,19,136)")) (26 + 1) 43) ',').getD
          ((goSplitCh (gsubI (gs ("227 Entering Passive Mode (127,0,0,1,19,136)")) (26 + 1) 43) ',').length - 1) [])).1, none) :=
  C6_pasv_port_decoding.1 (gs ("227 Entering Passive Mode (127,0,0,1,19,136)")) 26 43
    (by decide) (by decide) (by decide) (by decide) (by decide)

/-- C8: (1) a reply whose first line starts with two spaces makes
`MyreadCodeLine` discard that line, read two further lines and decode the
second of them; (2) a decoded status line that is a continuation (4th
character `-`) with no other decoding error is returned by
`MyReadCodeLine` without surfacing any error. -/
theorem C8_reply_reader_quirks :
    (∀ (l1 l2 l3 : GoStr) (rest : List GoStr) (expectCode : Int),
        goHasPfx l1 (gs ("  ")) = true →
        MyreadCodeLine (l1 :: l2 :: l3 :: rest) expectCode =
          (parseCodeLine l3 expectCode, rest)) ∧
    (∀ (line : GoStr) (rest : List GoStr) (expectCode code : Int) (msg : GoStr),
        goHasPfx line (gs ("  ")) = false →
        parseCodeLine line expectCode = (code, true, msg, none) →
        MyReadCodeLine (line :: rest) expectCode = ((code, msg, none), rest)) := by
  constructor
  · intro l1 l2 l3 rest e h
    simp [MyreadCodeLine, h]
  · intro line rest e code msg h hp
    simp [MyReadCodeLine, MyreadCodeLine, h, hp]

/-- C8 witness: the Serv-U disk-quota reply shape from the source's own
comment, and a syntactically continued final reply accepted without
error. -/
theorem C8_witness :
    MyreadCodeLine
      [gs ("    Used disk quota 0 Kbytes, available 1000000 Kbytes"),
       gs ("banner"), gs ("226 Transfer complete.")] (-1) =
      (parseCodeLine (gs ("226 Transfer complete.")) (-1), []) ∧
    MyReadCodeLine [gs ("226-Maximum disk quota limited to 1000000 Kbytes")] 226 =
      ((226, gs ("Maximum disk quota limited to 1000000 Kbytes"), none), []) :=
  ⟨C8_reply_reader_quirks.1 _ _ _ [] (-1) (by decide),
   C8_reply_reader_quirks.2 _ [] 226 226 (gs ("Maximum disk quota limited to 1000000 Kbytes"))
     (by decide) (by decide)⟩

/-- C5: in state 7 of the Unix-style scanner (size, month and day already
scanned), the token `buf[i:j]` is interpreted by width and delimiter
position — `H:MM` (width 4, `:` at offset 1) and `HH:MM` (width 5, `:` at
offset 2) yield an hour:minute timestamp of kind `REMOTE_MINUTE` through
the year-guessing heuristic, while any other token of width at least 4 is
read as a bare year of kind `REMOTE_DAY` — and the documented example line
parses to name `README`, tryCwd false, tryRetr true, size 531 and the
guessed-year timestamp for Jan 29 03:26 (2023-01-29 03:26 UTC under the
2023 clock snapshot). -/
theorem C5_unix_time_or_year :
    (∀ (clk : Clock) (buf : GoStr) (i j : Nat) (s : UState), s.st = 7 →
      ((j - i = 4 ∧ chAt buf (i + 1) = ':') →
        unixStep clk buf i j s =
          { s with
            fdata := { s.fdata with
              mtimeType := .REMOTE_MINUTE_MTIME_TYPE,
              mtime := some (guessTime clk s.month s.mday (parseInt [chAt buf i])
                (parseInt (gsub buf (i + 2) (i + 4)))),
              name := buf.drop (j + 1) },
            st := 8 }) ∧
      ((j - i = 5 ∧ chAt buf (i + 2) = ':') →
        unixStep clk buf i j s =
          { s with
            fdata := { s.fdata with
              mtimeType := .REMOTE_MINUTE_MTIME_TYPE,
              mtime := some (guessTime clk s.month s.mday (parseInt (gsub buf i (i + 2)))
                (parseInt (gsub buf (i + 3) (i + 5)))),
              name := buf.drop (j + 1) },
            st := 8 }) ∧
      ((4 ≤ j - i ∧ ¬(j - i = 4 ∧ chAt buf (i + 1) = ':') ∧
          ¬(j - i = 5 ∧ chAt buf (i + 2) = ':')) →
        unixStep clk buf i j s =
          { s with
            fdata := { s.fdata with
              mtimeType := .REMOTE_DAY_MTIME_TYPE,
              mtime := some (getMtime (parseInt (gsub buf i j)) s.month s.mday 0 0 0),
              name := buf.drop (j + 1) },
            st := 8 })) ∧
    ParseLine clock0 (gs ("-rw-r--r--   1 root     other     531 Jan 29 03:26 README")) =
      Except.ok (some
        { rawLine := gs ("-rw-r--r--   1 root     other     531 Jan 29 03:26 README"),
          name := gs ("README"), tryCwd := false, tryRetr := true, size := 531,
          mtimeType := .REMOTE_MINUTE_MTIME_TYPE, mtime := some 1674962760,
          idType := .UNKNOWN_ID_TYPE, id := [], linkDest := [] }) := by
  constructor
  · intro clk buf i j s hst
    refine ⟨?_, ?_, ?_⟩
    · intro hc
      rw [unixStep, if_neg (by omega), if_neg (by omega), if_neg (by omega),
        if_neg (by omega), if_neg (by omega), if_neg (by omega), if_pos hst,
        if_pos hc]
    · intro hc
      have h4 : ¬(j - i = 4 ∧ chAt buf (i + 1) = ':') := by
        rintro ⟨h, _⟩; omega
      rw [unixStep, if_neg (by omega), if_neg (by omega), if_neg (by omega),
        if_neg (by omega), if_neg (by omega), if_neg (by omega), if_pos hst,
        if_neg h4, if_pos hc]
    · intro hc
      rw [unixStep, if_neg (by omega), if_neg (by omega), if_neg (by omega),
        if_neg (by omega), if_neg (by omega), if_neg (by omega), if_pos hst,
        if_neg hc.2.1, if_neg hc.2.2, if_pos hc.1]
  · decide

/-- C5 witness: the `HH:MM` branch of the state-7 transition fired on the
concrete token `03:26`. -/
theorem C5_witness :
    unixStep clock0 (gs ("03:26 README")) 0 5
      { fdata := newFTPListData [], st := 7, size := 531, month := 1, mday := 29, brk := false } =
      { fdata := { newFTPListData [] with
          mtimeType := .REMOTE_MINUTE_MTIME_TYPE,
          mtime := some (guessTime clock0 1 29 (parseInt (gsub (gs ("03:26 README")) 0 2))
            (parseInt (gsub (gs ("03:26 README")) 3 5))),
          name := (gs ("03:26 README")).drop 6 },
        st := 8, size := 531, month := 1, mday := 29, brk := false } :=
  (C5_unix_time_or_year.1 clock0 (gs ("03:26 README")) 0 5
      { fdata := newFTPListData [], st := 7, size := 531, month := 1, mday := 29, brk := false }
      rfl).2.1 (by decide)

/-!  ### Calendar lemmas for the year-guessing heuristic  -/

/-- The Unix timestamp at 00:00 on January 1st of `y` (UTC). -/
def startOfYear (y : Int) : Int := daysFromCivil y 1 1 * 86400

/-- `guessTime` accepts a candidate year `y` when its timestamp is less
than 350 days old relative to `now`. -/
abbrev acceptsYear (clk : Clock) (m d h mi y : Int) : Prop :=
  clk.nowUnix - getMtime y m d h mi 0 < 350 * 86400

theorem guessTimeLoop_succ (now m d h mi : Int) (fuel : Nat) (y : Int) :
    guessTimeLoop now m d h mi (fuel + 1) y =
      if now - getMtime y m d h mi 0 < 350 * 86400 then getMtime y m d h mi 0
      else guessTimeLoop now m d h mi fuel (y + 1) := rfl

/-- With calendar-valid month, hour and minute, Go's field normalisation
in `time.Date` is the identity and `getMtime` is the plain civil
conversion. -/
theorem getMtime_reduce (y m d h mi : Int) (hm : 1 ≤ m) (hm' : m ≤ 12)
    (hh : 0 ≤ h) (hh' : h ≤ 23) (hmi : 0 ≤ mi) (hmi' : mi ≤ 59) :
    getMtime y m d h mi 0 = daysFromCivil y m d * 86400 + h * 3600 + mi * 60 := by
  simp only [getMtime, goDateUnix, norm2]
  rw [show ((0 : Int) / 60) = 0 from rfl, show ((0 : Int) % 60) = 0 from rfl]
  simp only [add_zero]
  rw [show mi / 60 = 0 from by omega]
  simp only [add_zero]
  rw [show h / 24 = 0 from by omega, show h % 24 = h from by omega,
    show mi % 60 = mi from by omega, show (m - 1) / 12 = 0 from by omega,
    show (m - 1) % 12 = m - 1 from by omega]
  simp only [add_zero]
  rw [sub_add_cancel]

/-- The same calendar date one year later is at most 366 days later. -/
theorem daysFromCivil_succ_le (y m d : Int) (hm : 1 ≤ m) (hm' : m ≤ 12) :
    daysFromCivil (y + 1) m d ≤ daysFromCivil y m d + 366 := by
  simp only [daysFromCivil]
  by_cases h2 : m ≤ 2
  · have h2' : ¬(2 < m) := by omega
    simp only [if_pos h2, if_neg h2']
    omega
  · have h2' : 2 < m := by omega
    simp only [if_neg h2, if_pos h2']
    omega

/-- A calendar-valid date of year `cy - 1` precedes January 1st of `cy`. -/
theorem daysFromCivil_prev_year_lt (cy m d : Int) (hm : 1 ≤ m) (hm' : m ≤ 12)
    (hd' : d ≤ 31) :
    daysFromCivil (cy - 1) m d < daysFromCivil cy 1 1 := by
  simp only [daysFromCivil]
  rw [if_pos (show (1 : Int) ≤ 2 by norm_num), if_neg (show ¬((2 : Int) < 1) by norm_num)]
  by_cases h2 : m ≤ 2
  · have h2' : ¬(2 < m) := by omega
    simp only [if_pos h2, if_neg h2']
    omega
  · have h2' : 2 < m := by omega
    simp only [if_neg h2, if_pos h2']
    omega

/-- January 1st of `cy + 1` precedes (or is) any calendar-valid date of
year `cy + 1`. -/
theorem daysFromCivil_ge_jan1 (cy m d : Int) (hm : 1 ≤ m) (hm' : m ≤ 12)
    (hd : 1 ≤ d) :
    daysFromCivil (cy + 1) 1 1 ≤ daysFromCivil (cy + 1) m d := by
  simp only [daysFromCivil]
  rw [if_pos (show (1 : Int) ≤ 2 by norm_num), if_neg (show ¬((2 : Int) < 1) by norm_num)]
  by_cases h2 : m ≤ 2
  · have h2' : ¬(2 < m) := by omega
    simp only [if_pos h2, if_neg h2']
    omega
  · have h2' : 2 < m := by omega
    simp only [if_neg h2, if_pos h2']
    omega

/-- First-fit characterisation and bounds for the `guessTime` scanning
loop, over a plain `now`/`currentYear` pair. -/
theorem guessTimeLoop_first_fit (now cy m d h mi : Int)
    (hm : 1 ≤ m) (hm' : m ≤ 12) (hd : 1 ≤ d) (hd' : d ≤ 31)
    (hh : 0 ≤ h) (hh' : h ≤ 23) (hmi : 0 ≤ mi) (hmi' : mi ≤ 59)
    (hn1 : startOfYear cy - 50400 ≤ now)
    (hn2 : now < startOfYear (cy + 1) + 43200) :
    ∃ y : Int,
      cy - 1 ≤ y ∧ y < cy + 100 ∧
      now - getMtime y m d h mi 0 < 350 * 86400 ∧
      (∀ z : Int, cy - 1 ≤ z → z < y → ¬(now - getMtime z m d h mi 0 < 350 * 86400)) ∧
      guessTimeLoop now m d h mi 101 (cy - 1) = getMtime y m d h mi 0 ∧
      now - guessTimeLoop now m d h mi 101 (cy - 1) < 350 * 86400 ∧
      guessTimeLoop now m d h mi 101 (cy - 1) ≤ now + 16 * 86400 := by
  have t1 := getMtime_reduce (cy - 1) m d h mi hm hm' hh hh' hmi hmi'
  have t2 := getMtime_reduce cy m d h mi hm hm' hh hh' hmi hmi'
  have t3 := getMtime_reduce (cy + 1) m d h mi hm hm' hh hh' hmi hmi'
  have d1 := daysFromCivil_prev_year_lt cy m d hm hm' hd'
  have d2a := daysFromCivil_succ_le (cy - 1) m d hm hm'
  have d2b := daysFromCivil_succ_le cy m d hm hm'
  have d3 := daysFromCivil_ge_jan1 cy m d hm hm' hd
  rw [show cy - 1 + 1 = cy from by omega] at d2a
  simp only [startOfYear] at hn1 hn2
  by_cases hA : now - getMtime (cy - 1) m d h mi 0 < 350 * 86400
  · have v : guessTimeLoop now m d h mi 101 (cy - 1) = getMtime (cy - 1) m d h mi 0 := by
      rw [show (101 : Nat) = 100 + 1 from rfl, guessTimeLoop_succ, if_pos hA]
    refine ⟨cy - 1, le_refl _, by omega, hA, ?_, v, ?_, ?_⟩
    · intro z hz1 hz2
      omega
    · rw [v]; exact hA
    · rw [v]; omega
  · by_cases hB : now - getMtime cy m d h mi 0 < 350 * 86400
    · have v : guessTimeLoop now m d h mi 101 (cy - 1) = getMtime cy m d h mi 0 := by
        rw [show (101 : Nat) = 100 + 1 from rfl, guessTimeLoop_succ, if_neg hA,
          show cy - 1 + 1 = cy from by omega,
          show (100 : Nat) = 99 + 1 from rfl, guessTimeLoop_succ, if_pos hB]
      refine ⟨cy, by omega, by omega, hB, ?_, v, ?_, ?_⟩
      · intro z hz1 hz2
        rw [show z = cy - 1 from by omega]
        exact hA
      · rw [v]; exact hB
      · rw [v]; omega
    · have hC : now - getMtime (cy + 1) m d h mi 0 < 350 * 86400 := by omega
      have v : guessTimeLoop now m d h mi 101 (cy - 1) = getMtime (cy + 1) m d h mi 0 := by
        rw [show (101 : Nat) = 100 + 1 from rfl, guessTimeLoop_succ, if_neg hA,
          show cy - 1 + 1 = cy from by omega,
          show (100 : Nat) = 99 + 1 from rfl, guessTimeLoop_succ, if_neg hB,
          show (99 : Nat) = 98 + 1 from rfl, guessTimeLoop_succ, if_pos hC]
      refine ⟨cy + 1, by omega, by omega, hC, ?_, v, ?_, ?_⟩
      · intro z hz1 hz2
        have hz : z = cy - 1 ∨ z = cy := by omega
        rcases hz with hz | hz <;> rw [hz]
        · exact hA
        · exact hB
      · rw [v]; exact hC
      · rw [v]; omega

/-- C4: given a month/day/hour/minute (calendar-valid field values) with
no explicit year, `guessTime` returns the UTC timestamp of the first
candidate year — scanning upward from `currentYear - 1` within the loop
range — whose timestamp `t` satisfies `now - t < 350` days; consequently
the returned timestamp is at most `now` plus a small tolerance (16 days
covers the 366-day year step over the 350-day window, plus the
local-time-zone slack between `now` and `currentYear`) and its age
relative to `now` is under 350 days. -/
theorem C4_guess_time_first_fit (clk : Clock) (m d h mi : Int)
    (hm : 1 ≤ m) (hm' : m ≤ 12) (hd : 1 ≤ d) (hd' : d ≤ 31)
    (hh : 0 ≤ h) (hh' : h ≤ 23) (hmi : 0 ≤ mi) (hmi' : mi ≤ 59)
    (hn1 : startOfYear clk.currentYear - 50400 ≤ clk.nowUnix)
    (hn2 : clk.nowUnix < startOfYear (clk.currentYear + 1) + 43200) :
    ∃ y : Int,
      clk.currentYear - 1 ≤ y ∧ y < clk.currentYear + 100 ∧
      acceptsYear clk m d h mi y ∧
      (∀ z : Int, clk.currentYear - 1 ≤ z → z < y → ¬ acceptsYear clk m d h mi z) ∧
      guessTime clk m d h mi = getMtime y m d h mi 0 ∧
      clk.nowUnix - guessTime clk m d h mi < 350 * 86400 ∧
      guessTime clk m d h mi ≤ clk.nowUnix + 16 * 86400 :=
  guessTimeLoop_first_fit clk.nowUnix clk.currentYear m d h mi
    hm hm' hd hd' hh hh' hmi hmi' hn1 hn2

/-- C4 witness: the heuristic instantiated at Jan 29 03:26 under the
concrete 2023 clock snapshot (the accepted year is 2023). -/
theorem C4_witness :
    ∃ y : Int,
      clock0.currentYear - 1 ≤ y ∧ y < clock0.currentYear + 100 ∧
      acceptsYear clock0 1 29 3 26 y ∧
      (∀ z : Int, clock0.currentYear - 1 ≤ z → z < y → ¬ acceptsYear clock0 1 29 3 26 z) ∧
      guessTime clock0 1 29 3 26 = getMtime y 1 29 3 26 0 ∧
      clock0.nowUnix - guessTime clock0 1 29 3 26 < 350 * 86400 ∧
      guessTime clock0 1 29 3 26 ≤ clock0.nowUnix + 16 * 86400 :=
  C4_guess_time_first_fit clock0 1 29 3 26
    (by decide) (by decide) (by decide) (by decide) (by decide) (by decide)
    (by decide) (by decide) (by decide) (by decide)
